import Mathlib

/-!
Verification development for `Projeto_de_Orcamento_de_Aluguel.py`, a rental
budget calculator.  The Python floats of the source are modelled as exact
rationals; Python's `round(x, 2)` (round half to even) is modelled by
`round2`, and Python's ASCII `str.lower` by `strLower`.  `ValueError` raised
by `base_rent` is modelled with `Except String`.  The file-writing side of
`to_csv` is modelled as a trace of file-system operations paired with the
returned path, mirroring the statement order of the source (the monthly rent
is computed before any directory or file is touched).
-/

/-- Python `round(y)` to an integer: round half to even (banker's rounding). -/
def roundHalfEven (y : ℚ) : ℤ :=
  let f := ⌊y⌋
  let r := y - (f : ℚ)
  if r < 1/2 then f
  else if 1/2 < r then f + 1
  else if f % 2 = 0 then f else f + 1

/-- Python `round(x, 2)`: round to two decimal places, half to even. -/
def round2 (x : ℚ) : ℚ := (roundHalfEven (x * 100) : ℚ) / 100

/-- Python `str.lower` on the ASCII strings used for property types. -/
def strLower (s : String) : String := String.mk (s.data.map Char.toLower)

/-- Input record of the program: the `RentalQuote` dataclass (defaults as in
the source). -/
structure RentalQuote where
  property_type : String
  bedrooms : ℤ := 1
  garage : Bool := false
  studio_base_parking : Bool := false
  studio_extra_vagas : ℤ := 0
  has_children : Bool := true
  contract_installments : ℤ := 1

/-- The class constant `CONTRACT_VALUE = 2000.0`. -/
def CONTRACT_VALUE : ℚ := 2000

/-- The method `RentalQuote.base_rent` (lines 46-55): base price per lowered
property type, `ValueError` for anything else. -/
def base_rent (q : RentalQuote) : Except String ℚ :=
  let t := strLower q.property_type
  if t = "apartamento" then .ok 700
  else if t = "casa" then .ok 900
  else if t = "estudio" then .ok 1200
  else .error ("Tipo de imóvel desconhecido: " ++ q.property_type)

/-- The running total of `RentalQuote.compute_monthly_rent` after all additive
adjustments (lines 58-77), before the apartment discount and the final
rounding. -/
def rent_before_discount (q : RentalQuote) : Except String ℚ :=
  match base_rent q with
  | .error e => .error e
  | .ok base =>
    let t := strLower q.property_type
    let rent := base
    let rent := if t = "apartamento" ∧ q.bedrooms = 2 then rent + 200 else rent
    let rent := if t = "casa" ∧ q.bedrooms = 2 then rent + 250 else rent
    let rent := if (t = "apartamento" ∨ t = "casa") ∧ q.garage then rent + 300 else rent
    let rent :=
      if t = "estudio" ∧ q.studio_base_parking then
        rent + 250 + (if 0 < q.studio_extra_vagas then 60 * (q.studio_extra_vagas : ℚ) else 0)
      else rent
    .ok rent

/-- The method `RentalQuote.compute_monthly_rent` (lines 57-84): additive
adjustments, then the 5% apartment-without-children discount, then rounding
to two decimal places. -/
def compute_monthly_rent (q : RentalQuote) : Except String ℚ :=
  match rent_before_discount q with
  | .error e => .error e
  | .ok rent =>
    let t := strLower q.property_type
    let rent := if t = "apartamento" ∧ q.has_children = false then rent * (95/100) else rent
    .ok (round2 rent)

/-- The method `RentalQuote.contract_installment_value` (lines 86-89). -/
def contract_installment_value (q : RentalQuote) : ℚ :=
  let n : ℤ := max 1 (min q.contract_installments 5)
  round2 (CONTRACT_VALUE / (n : ℚ))

/-- One data row of the schedule produced by the loop in `to_csv`
(lines 118-121). -/
structure ScheduleRow where
  mes : ℕ
  mensalidade : ℚ
  contrato_parcela : ℚ
  total_no_mes : ℚ
deriving DecidableEq, Repr

/-- The twelve rows computed by the loop `for m in range(1, 13)` of `to_csv`:
months 1..12, rent every month, the contract installment in months
`1..installments`, and the rounded monthly total. -/
def schedule_rows (mensalidade contrato_parcela : ℚ) (installments : ℤ) :
    List ScheduleRow :=
  (List.range 12).map fun i =>
    let m : ℕ := i + 1
    let contrato_here := if (m : ℤ) ≤ installments then contrato_parcela else 0
    { mes := m, mensalidade := mensalidade, contrato_parcela := contrato_here,
      total_no_mes := round2 (mensalidade + contrato_here) }

/-- Python `f'{x:.2f}'` on the exact rational model: sign, integer part, a
period, and exactly two decimal digits. -/
def fmt2 (x : ℚ) : String :=
  let c := roundHalfEven (x * 100)
  let sign := if c < 0 then "-" else ""
  let a := c.natAbs
  sign ++ Nat.repr (a / 100) ++ "." ++
    String.singleton (Nat.digitChar (a / 10 % 10)) ++
    String.singleton (Nat.digitChar (a % 10))

/-- A line written by `csv.writer.writerow`: cells joined by commas (no cell
of this program needs quoting). -/
def csv_line (cells : List String) : String := String.intercalate "," cells

/-- The header row written at line 117 of the source. -/
def header_line : String :=
  csv_line ["mes", "mensalidade", "contrato_parcela", "total_no_mes"]

/-- Serialization of one schedule row as written at line 121 of the source. -/
def row_line (r : ScheduleRow) : String :=
  csv_line [Nat.repr r.mes, fmt2 r.mensalidade, fmt2 r.contrato_parcela,
    fmt2 r.total_no_mes]

/-- File-system side effects of `to_csv`: creating the `output` directory and
writing one text file. -/
inductive FsOp where
  | makeOutputDir : FsOp
  | writeTextFile : String → List String → FsOp
deriving DecidableEq

/-- The method `RentalQuote.to_csv` (lines 96-123) with an explicit filename,
modelled as the ordered trace of file-system operations it performs together
with its result.  As in the source, `compute_monthly_rent` runs first, so a
pricing error aborts the call before any file-system operation happens. -/
def to_csv (q : RentalQuote) (filename : String) : List FsOp × Except String String :=
  match compute_monthly_rent q with
  | .error e => ([], .error e)
  | .ok mensalidade =>
    let contrato_parcela := contract_installment_value q
    let installments : ℤ := max 1 (min q.contract_installments 5)
    let filepath := "output/" ++ filename
    let lines := header_line ::
      (schedule_rows mensalidade contrato_parcela installments).map row_line
    ([FsOp.makeOutputDir, FsOp.writeTextFile filepath lines], .ok filepath)

/-- A property type the program knows: one of the three recognized strings
after lowering. -/
def known_type (q : RentalQuote) : Prop :=
  strLower q.property_type = "apartamento" ∨
  strLower q.property_type = "casa" ∨
  strLower q.property_type = "estudio"

instance (q : RentalQuote) : Decidable (known_type q) := by
  unfold known_type; infer_instance

/-- C4: for every integer `requestedInstallments`, `contract_installment_value`
returns `round(2000 / clamp(k, 1, 5), 2)` and never fails; `k = 3` yields
666.67 and `k = 7` clamps to 5 and yields 400.00. -/
theorem c4_contract_installment_value_clamps :
    (∀ q : RentalQuote,
      contract_installment_value q
        = round2 (2000 / ((min (max q.contract_installments 1) 5 : ℤ) : ℚ)))
    ∧ contract_installment_value { property_type := "x", contract_installments := 3 }
        = 66667 / 100
    ∧ contract_installment_value { property_type := "x", contract_installments := 7 }
        = 400 := by
  refine ⟨fun q => ?_, ?_, ?_⟩
  · unfold contract_installment_value CONTRACT_VALUE
    have h : max 1 (min q.contract_installments 5)
        = min (max q.contract_installments 1) 5 := by omega
    rw [h]
  · norm_num [contract_installment_value, CONTRACT_VALUE, round2, roundHalfEven,
      min_def, max_def]
  · norm_num [contract_installment_value, CONTRACT_VALUE, round2, roundHalfEven,
      min_def, max_def]

/-- The three recognized type strings are pairwise distinct. -/
theorem apartamento_ne_casa : ("apartamento" : String) ≠ "casa" := by decide

/-- Distinctness of the recognized type strings, apartment versus studio. -/
theorem apartamento_ne_estudio : ("apartamento" : String) ≠ "estudio" := by decide

/-- Distinctness of the recognized type strings, house versus apartment. -/
theorem casa_ne_apartamento : ("casa" : String) ≠ "apartamento" := by decide

/-- Distinctness of the recognized type strings, house versus studio. -/
theorem casa_ne_estudio : ("casa" : String) ≠ "estudio" := by decide

/-- Distinctness of the recognized type strings, studio versus apartment. -/
theorem estudio_ne_apartamento : ("estudio" : String) ≠ "apartamento" := by decide

/-- Distinctness of the recognized type strings, studio versus house. -/
theorem estudio_ne_casa : ("estudio" : String) ≠ "casa" := by decide

/-- Evaluation of the running total for apartments. -/
theorem rent_before_discount_apartamento (q : RentalQuote)
    (h : strLower q.property_type = "apartamento") :
    rent_before_discount q
      = .ok (700 + (if q.bedrooms = 2 then 200 else 0)
          + (if q.garage = true then 300 else 0)) := by
  simp [rent_before_discount, base_rent, h, apartamento_ne_casa, apartamento_ne_estudio]
  split_ifs <;> ring

/-- Evaluation of the running total for houses. -/
theorem rent_before_discount_casa (q : RentalQuote)
    (h : strLower q.property_type = "casa") :
    rent_before_discount q
      = .ok (900 + (if q.bedrooms = 2 then 250 else 0)
          + (if q.garage = true then 300 else 0)) := by
  simp [rent_before_discount, base_rent, h, casa_ne_apartamento, casa_ne_estudio]
  split_ifs <;> ring

/-- Evaluation of the running total for studios. -/
theorem rent_before_discount_estudio (q : RentalQuote)
    (h : strLower q.property_type = "estudio") :
    rent_before_discount q
      = .ok (1200 + (if q.studio_base_parking = true
          then 250 + (if 0 < q.studio_extra_vagas
            then 60 * (q.studio_extra_vagas : ℚ) else 0)
          else 0)) := by
  simp [rent_before_discount, base_rent, h, estudio_ne_apartamento, estudio_ne_casa]
  split_ifs <;> ring

/-- Evaluation of `compute_monthly_rent` from the running total: the 5%
discount is applied exactly when the type is apartment and there are no
children, and the result is rounded last. -/
theorem compute_monthly_rent_of_rbd (q : RentalQuote) (rent : ℚ)
    (h : rent_before_discount q = .ok rent) :
    compute_monthly_rent q
      = .ok (round2 (if strLower q.property_type = "apartamento" ∧ q.has_children = false
          then rent * (95/100) else rent)) := by
  unfold compute_monthly_rent
  rw [h]

/-- C1: for every configuration with a known property type, the running total
before the apartment discount and the final rounding is the base rent
(apartment 700, house 900, studio 1200) plus exactly the adjustments: +200
for a 2-bedroom apartment, +250 for a 2-bedroom house, +300 for a garage on
an apartment or house, and, for a studio with the parking package, +250 plus
60 per extra space when the extra-space count is positive. -/
theorem c1_base_and_additive_adjustments (q : RentalQuote) (h : known_type q) :
    rent_before_discount q = .ok
      ((if strLower q.property_type = "apartamento" then 700
        else if strLower q.property_type = "casa" then 900 else 1200)
       + (if strLower q.property_type = "apartamento" ∧ q.bedrooms = 2 then 200 else 0)
       + (if strLower q.property_type = "casa" ∧ q.bedrooms = 2 then 250 else 0)
       + (if (strLower q.property_type = "apartamento" ∨ strLower q.property_type = "casa")
            ∧ q.garage = true then 300 else 0)
       + (if strLower q.property_type = "estudio" ∧ q.studio_base_parking = true
          then 250 + (if 0 < q.studio_extra_vagas then 60 * (q.studio_extra_vagas : ℚ) else 0)
          else 0)) := by
  rcases h with h | h | h
  · rw [rent_before_discount_apartamento q h]
    simp [h, apartamento_ne_casa, apartamento_ne_estudio]
  · rw [rent_before_discount_casa q h]
    simp [h, casa_ne_apartamento, casa_ne_estudio]
  · rw [rent_before_discount_estudio q h]
    simp [h, estudio_ne_apartamento, estudio_ne_casa]

/-- Witness for C1 at a concrete studio configuration with the parking
package and one extra space. -/
theorem c1_base_and_additive_adjustments_witness :
    rent_before_discount
        { property_type := "Estudio", studio_base_parking := true, studio_extra_vagas := 1 }
      = Except.ok (1200 + 0 + 0 + 0 + (250 + 60 * ((1 : ℤ) : ℚ))) :=
  c1_base_and_additive_adjustments
    { property_type := "Estudio", studio_base_parking := true, studio_extra_vagas := 1 }
    (by decide)

/-- C2: for every configuration, the monthly rent is the running total
multiplied by 0.95 exactly when the type is apartment and there are no
children (and the running total unchanged otherwise, house and studio
included), rounded to two decimals as the last step; a 1-bedroom no-garage
apartment without children prices at exactly 665.00. -/
theorem c2_apartment_discount_last_step :
    (∀ (q : RentalQuote) (rent : ℚ), rent_before_discount q = .ok rent →
      compute_monthly_rent q
        = .ok (round2 (if strLower q.property_type = "apartamento" ∧ q.has_children = false
            then rent * (95/100) else rent)))
    ∧ compute_monthly_rent
        { property_type := "apartamento", bedrooms := 1, garage := false, has_children := false }
      = .ok 665 := by
  constructor
  · exact compute_monthly_rent_of_rbd
  · have h := rent_before_discount_apartamento
      { property_type := "apartamento", bedrooms := 1, garage := false, has_children := false }
      (by decide)
    norm_num at h
    rw [compute_monthly_rent_of_rbd _ 700 h]
    have hs : strLower "apartamento" = "apartamento" := by decide
    simp only [hs]
    norm_num [round2, roundHalfEven]

/-- Evaluation of `base_rent` on an unknown property type: the `ValueError`
of line 55 of the source. -/
theorem base_rent_unknown (q : RentalQuote) (h : ¬ known_type q) :
    base_rent q = .error ("Tipo de imóvel desconhecido: " ++ q.property_type) := by
  unfold known_type at h
  push_neg at h
  obtain ⟨h1, h2, h3⟩ := h
  simp [base_rent, h1, h2, h3]

/-- C5: on a configuration whose property type is not one of the three known
values, computing the rent fails with the unknown-type error, and `to_csv`
fails with that same error while performing no file-system operation at all:
no directory is created, no file is opened, no row is written. -/
theorem c5_unknown_type_no_output (q : RentalQuote) (fn : String)
    (h : ¬ known_type q) :
    compute_monthly_rent q = .error ("Tipo de imóvel desconhecido: " ++ q.property_type)
    ∧ to_csv q fn = ([], .error ("Tipo de imóvel desconhecido: " ++ q.property_type)) := by
  have hb := base_rent_unknown q h
  have hr : rent_before_discount q
      = .error ("Tipo de imóvel desconhecido: " ++ q.property_type) := by
    unfold rent_before_discount
    rw [hb]
  have hc : compute_monthly_rent q
      = .error ("Tipo de imóvel desconhecido: " ++ q.property_type) := by
    unfold compute_monthly_rent
    rw [hr]
  refine ⟨hc, ?_⟩
  unfold to_csv
  rw [hc]

/-- Witness for C5 at the concrete unknown property type string `chale`. -/
theorem c5_unknown_type_no_output_witness :
    compute_monthly_rent { property_type := "chale" }
        = .error ("Tipo de imóvel desconhecido: " ++ "chale")
    ∧ to_csv { property_type := "chale" } "orcamento.csv"
        = ([], .error ("Tipo de imóvel desconhecido: " ++ "chale")) :=
  c5_unknown_type_no_output { property_type := "chale" } "orcamento.csv" (by decide)

/-- Nonnegativity of the integer rounding. -/
theorem roundHalfEven_nonneg (y : ℚ) (h : 0 ≤ y) : 0 ≤ roundHalfEven y := by
  simp only [roundHalfEven]
  have hf : (0 : ℤ) ≤ ⌊y⌋ := Int.floor_nonneg.mpr h
  split_ifs <;> omega

/-- Nonnegativity of rounding to two decimal places. -/
theorem round2_nonneg (x : ℚ) (h : 0 ≤ x) : 0 ≤ round2 x := by
  unfold round2
  have h1 : (0 : ℤ) ≤ roundHalfEven (x * 100) :=
    roundHalfEven_nonneg (x * 100) (by positivity)
  have h2 : (0 : ℚ) ≤ (roundHalfEven (x * 100) : ℚ) := by exact_mod_cast h1
  positivity

/-- A nonnegative running total gives a nonnegative priced monthly rent. -/
theorem compute_monthly_rent_ok_of_rbd (q : RentalQuote) (E : ℚ)
    (hE : rent_before_discount q = .ok E) (hE0 : 0 ≤ E) :
    ∃ v, compute_monthly_rent q = .ok v ∧ 0 ≤ v := by
  refine ⟨_, compute_monthly_rent_of_rbd _ _ hE, round2_nonneg _ ?_⟩
  split_ifs
  · nlinarith
  · exact hE0

/-- On every known property type the priced monthly rent exists and is
nonnegative. -/
theorem compute_monthly_rent_ok (q : RentalQuote) (h : known_type q) :
    ∃ v, compute_monthly_rent q = .ok v ∧ 0 ≤ v := by
  rcases h with h | h | h
  · refine compute_monthly_rent_ok_of_rbd q _ (rent_before_discount_apartamento q h) ?_
    split_ifs <;> norm_num
  · refine compute_monthly_rent_ok_of_rbd q _ (rent_before_discount_casa q h) ?_
    split_ifs <;> norm_num
  · refine compute_monthly_rent_ok_of_rbd q _ (rent_before_discount_estudio q h) ?_
    split_ifs with hp hv
    · have hv2 : (0 : ℚ) ≤ (q.studio_extra_vagas : ℚ) := by exact_mod_cast le_of_lt hv
      linarith
    · norm_num
    · norm_num

/-- C8: the monthly rent computation is a pure function of the configuration
(two evaluations on the same configuration are identical), and on every known
property type it produces a nonnegative value. -/
theorem c8_deterministic_and_nonnegative :
    (∀ q : RentalQuote, compute_monthly_rent q = compute_monthly_rent q)
    ∧ (∀ q : RentalQuote, known_type q →
        ∃ v, compute_monthly_rent q = .ok v ∧ 0 ≤ v) :=
  ⟨fun _ => rfl, fun q h => compute_monthly_rent_ok q h⟩

/-- C7: `compute_monthly_rent` ignores, and never rejects, the fields that
are irrelevant to the chosen property type: changing `bedrooms`, `garage` or
`has_children` does not affect a studio's rent, and changing the studio
parking fields does not affect an apartment's or a house's rent; in every
such case the computation still succeeds. -/
theorem c7_irrelevant_fields_ignored :
    (∀ (q : RentalQuote) (b : ℤ) (g hc : Bool),
      strLower q.property_type = "estudio" →
        compute_monthly_rent { q with bedrooms := b, garage := g, has_children := hc }
            = compute_monthly_rent q
        ∧ ∃ v, compute_monthly_rent q = .ok v)
    ∧ (∀ (q : RentalQuote) (sp : Bool) (se : ℤ),
      strLower q.property_type = "apartamento" ∨ strLower q.property_type = "casa" →
        compute_monthly_rent { q with studio_base_parking := sp, studio_extra_vagas := se }
            = compute_monthly_rent q
        ∧ ∃ v, compute_monthly_rent q = .ok v) := by
  constructor
  · intro q b g hc h
    have h' : strLower ({ q with bedrooms := b, garage := g, has_children := hc }
        : RentalQuote).property_type = "estudio" := h
    constructor
    · rw [compute_monthly_rent_of_rbd _ _ (rent_before_discount_estudio _ h'),
        compute_monthly_rent_of_rbd _ _ (rent_before_discount_estudio q h)]
      simp [h, h', estudio_ne_apartamento]
    · obtain ⟨v, hv, _⟩ := compute_monthly_rent_ok q (Or.inr (Or.inr h))
      exact ⟨v, hv⟩
  · intro q sp se h
    rcases h with h | h
    · have h' : strLower ({ q with studio_base_parking := sp, studio_extra_vagas := se }
          : RentalQuote).property_type = "apartamento" := h
      constructor
      · rw [compute_monthly_rent_of_rbd _ _ (rent_before_discount_apartamento _ h'),
          compute_monthly_rent_of_rbd _ _ (rent_before_discount_apartamento q h)]
      · obtain ⟨v, hv, _⟩ := compute_monthly_rent_ok q (Or.inl h)
        exact ⟨v, hv⟩
    · have h' : strLower ({ q with studio_base_parking := sp, studio_extra_vagas := se }
          : RentalQuote).property_type = "casa" := h
      constructor
      · rw [compute_monthly_rent_of_rbd _ _ (rent_before_discount_casa _ h'),
          compute_monthly_rent_of_rbd _ _ (rent_before_discount_casa q h)]
      · obtain ⟨v, hv, _⟩ := compute_monthly_rent_ok q (Or.inr (Or.inl h))
        exact ⟨v, hv⟩

/-- C9: property type matching goes through lowercasing, so any string whose
lowercase form is one of the three recognized values is priced as that type
instead of raising, and two configurations whose property type strings agree
after lowercasing (in particular, strings differing only in letter case)
produce the same rent. -/
theorem c9_case_insensitive_types :
    (∀ q : RentalQuote, strLower q.property_type = "apartamento" → base_rent q = .ok 700)
    ∧ (∀ q : RentalQuote, strLower q.property_type = "casa" → base_rent q = .ok 900)
    ∧ (∀ q : RentalQuote, strLower q.property_type = "estudio" → base_rent q = .ok 1200)
    ∧ (∀ q : RentalQuote, known_type q → ∃ v, compute_monthly_rent q = .ok v)
    ∧ (∀ (q : RentalQuote) (s : String), strLower s = strLower q.property_type →
        known_type q →
        compute_monthly_rent { q with property_type := s } = compute_monthly_rent q) := by
  refine ⟨?_, ?_, ?_, ?_, ?_⟩
  · intro q h
    simp [base_rent, h]
  · intro q h
    simp [base_rent, h, casa_ne_apartamento]
  · intro q h
    simp [base_rent, h, estudio_ne_apartamento, estudio_ne_casa]
  · intro q h
    obtain ⟨v, hv, _⟩ := compute_monthly_rent_ok q h
    exact ⟨v, hv⟩
  · intro q s hs h
    rcases h with h | h | h
    · have h' : strLower ({ q with property_type := s } : RentalQuote).property_type
          = "apartamento" := hs.trans h
      rw [compute_monthly_rent_of_rbd _ _ (rent_before_discount_apartamento _ h'),
        compute_monthly_rent_of_rbd _ _ (rent_before_discount_apartamento q h)]
      simp [h, h']
    · have h' : strLower ({ q with property_type := s } : RentalQuote).property_type
          = "casa" := hs.trans h
      rw [compute_monthly_rent_of_rbd _ _ (rent_before_discount_casa _ h'),
        compute_monthly_rent_of_rbd _ _ (rent_before_discount_casa q h)]
      simp [h, h', casa_ne_apartamento]
    · have h' : strLower ({ q with property_type := s } : RentalQuote).property_type
          = "estudio" := hs.trans h
      rw [compute_monthly_rent_of_rbd _ _ (rent_before_discount_estudio _ h'),
        compute_monthly_rent_of_rbd _ _ (rent_before_discount_estudio q h)]
      simp [h, h', estudio_ne_apartamento]

/-- Row `i` (0-based) of the schedule is month `i + 1` with the contract
portion present exactly in the first `installments` months. -/
theorem schedule_rows_getElem (mensalidade contrato_parcela : ℚ) (installments : ℤ)
    (i : ℕ) (hi : i < 12) :
    (schedule_rows mensalidade contrato_parcela installments)[i]?
      = some { mes := i + 1, mensalidade := mensalidade,
               contrato_parcela :=
                 if ((i + 1 : ℕ) : ℤ) ≤ installments then contrato_parcela else 0,
               total_no_mes := round2 (mensalidade
                 + (if ((i + 1 : ℕ) : ℤ) ≤ installments then contrato_parcela else 0)) } := by
  simp [schedule_rows, List.getElem?_map, List.getElem?_range hi]

/-- C3: for every rent, installment value and installment count in `[1, 5]`,
the schedule is exactly 12 rows in month order 1..12, where month `m` carries
the rent, a contract portion equal to the installment value for `m` up to the
installment count and 0 afterwards, and the rounded sum as its total; with
rent 700, installment 400 and count 2 the monthly totals are 1100 for months
1 and 2 and 700 for months 3..12. -/
theorem c3_schedule_generation :
    (∀ (rent iv : ℚ) (k : ℤ), 1 ≤ k → k ≤ 5 →
      (schedule_rows rent iv k).length = 12
      ∧ (schedule_rows rent iv k).map ScheduleRow.mes
          = [1, 2, 3, 4, 5, 6, 7, 8, 9, 10, 11, 12]
      ∧ ∀ m : ℕ, 1 ≤ m → m ≤ 12 →
          (schedule_rows rent iv k)[m - 1]?
            = some { mes := m, mensalidade := rent,
                     contrato_parcela := if (m : ℤ) ≤ k then iv else 0,
                     total_no_mes := round2 (rent + (if (m : ℤ) ≤ k then iv else 0)) })
    ∧ (schedule_rows 700 400 2).map ScheduleRow.total_no_mes
        = [1100, 1100, 700, 700, 700, 700, 700, 700, 700, 700, 700, 700] := by
  constructor
  · intro rent iv k _ _
    refine ⟨rfl, rfl, ?_⟩
    intro m h1 h12
    obtain ⟨i, rfl⟩ : ∃ i, m = i + 1 := ⟨m - 1, by omega⟩
    simpa using schedule_rows_getElem rent iv k i (by omega)
  · norm_num [schedule_rows, List.range_succ, round2, roundHalfEven]

/-- The contract installment value is never zero: 2000 divided by a clamped
count in `[1, 5]` rounds to one of five positive values. -/
theorem contract_installment_value_ne_zero (q : RentalQuote) :
    contract_installment_value q ≠ 0 := by
  unfold contract_installment_value CONTRACT_VALUE
  set n : ℤ := max 1 (min q.contract_installments 5) with hn
  have h1 : 1 ≤ n := by omega
  have h5 : n ≤ 5 := by omega
  interval_cases n <;> norm_num [round2, roundHalfEven]

/-- Counting months `m` in 1..12 with `m` at most a clamped installment
count. -/
theorem countP_range_le (inst : ℤ) (h1 : 1 ≤ inst) (h5 : inst ≤ 5) :
    List.countP (fun i : ℕ => decide (((i + 1 : ℕ) : ℤ) ≤ inst)) (List.range 12)
      = inst.toNat := by
  interval_cases inst <;> decide

/-- Number of schedule rows with a nonzero contract portion, for a nonzero
installment value and a clamped installment count. -/
theorem schedule_rows_countP (mens cp : ℚ) (inst : ℤ) (hcp : cp ≠ 0)
    (h1 : 1 ≤ inst) (h5 : inst ≤ 5) :
    (schedule_rows mens cp inst).countP (fun r => decide (r.contrato_parcela ≠ 0))
      = inst.toNat := by
  have hs : schedule_rows mens cp inst
      = List.map (fun i : ℕ =>
          ({ mes := i + 1, mensalidade := mens,
             contrato_parcela := if ((i + 1 : ℕ) : ℤ) ≤ inst then cp else 0,
             total_no_mes := round2 (mens
               + if ((i + 1 : ℕ) : ℤ) ≤ inst then cp else 0) } : ScheduleRow))
          (List.range 12) := rfl
  have hfun : ((fun r : ScheduleRow => decide (r.contrato_parcela ≠ 0)) ∘
      fun i : ℕ =>
        ({ mes := i + 1, mensalidade := mens,
           contrato_parcela := if ((i + 1 : ℕ) : ℤ) ≤ inst then cp else 0,
           total_no_mes := round2 (mens
             + if ((i + 1 : ℕ) : ℤ) ≤ inst then cp else 0) } : ScheduleRow))
      = fun i : ℕ => decide (((i + 1 : ℕ) : ℤ) ≤ inst) := by
    funext i
    show decide ((if ((i + 1 : ℕ) : ℤ) ≤ inst then cp else 0) ≠ 0)
      = decide (((i + 1 : ℕ) : ℤ) ≤ inst)
    by_cases hi : ((i + 1 : ℕ) : ℤ) ≤ inst
    · rw [if_pos hi, decide_eq_true hcp, decide_eq_true hi]
    · rw [if_neg hi, decide_eq_false hi]
      simp
  rw [hs, List.countP_map, hfun]
  exact countP_range_le inst h1 h5

/-- C10: `to_csv` clamps the installment count itself: for every integer
`contract_installments` (0, negative and above 5 included) it succeeds with
the output path, and the schedule it serializes has at least 1 and at most 5
rows with a nonzero contract portion. -/
theorem c10_to_csv_clamps_installments (q : RentalQuote) (fn : String)
    (h : known_type q) :
    (to_csv q fn).2 = .ok ("output/" ++ fn)
    ∧ ∀ mens, compute_monthly_rent q = .ok mens →
        1 ≤ (schedule_rows mens (contract_installment_value q)
              (max 1 (min q.contract_installments 5))).countP
                (fun r => decide (r.contrato_parcela ≠ 0))
        ∧ (schedule_rows mens (contract_installment_value q)
              (max 1 (min q.contract_installments 5))).countP
                (fun r => decide (r.contrato_parcela ≠ 0)) ≤ 5 := by
  obtain ⟨v, hv, _⟩ := compute_monthly_rent_ok q h
  constructor
  · unfold to_csv
    rw [hv]
  · intro mens _
    rw [schedule_rows_countP mens (contract_installment_value q)
      (max 1 (min q.contract_installments 5))
      (contract_installment_value_ne_zero q) (by omega) (by omega)]
    omega

/-- Witness for C10 at a house configuration requesting 9 installments. -/
theorem c10_to_csv_clamps_installments_witness :
    (to_csv { property_type := "casa", contract_installments := 9 } "f.csv").2
        = .ok ("output/" ++ "f.csv")
    ∧ ∀ mens,
        compute_monthly_rent { property_type := "casa", contract_installments := 9 }
          = .ok mens →
        1 ≤ (schedule_rows mens
              (contract_installment_value
                { property_type := "casa", contract_installments := 9 })
              (max 1 (min 9 5))).countP
                (fun r => decide (r.contrato_parcela ≠ 0))
        ∧ (schedule_rows mens
              (contract_installment_value
                { property_type := "casa", contract_installments := 9 })
              (max 1 (min 9 5))).countP
                (fun r => decide (r.contrato_parcela ≠ 0)) ≤ 5 :=
  c10_to_csv_clamps_installments
    { property_type := "casa", contract_installments := 9 } "f.csv" (by decide)

/-- Digit characters produced for values below ten are decimal digits. -/
theorem digitChar_isDigit (n : ℕ) (h : n < 10) : (Nat.digitChar n).isDigit = true := by
  interval_cases n <;> decide

/-- Every formatted currency field ends in a period followed by exactly two
decimal digits. -/
theorem fmt2_two_decimals (x : ℚ) :
    ∃ (p : String) (a b : Char),
      fmt2 x = p ++ "." ++ String.singleton a ++ String.singleton b
      ∧ a.isDigit = true ∧ b.isDigit = true := by
  refine ⟨(if roundHalfEven (x * 100) < 0 then "-" else "")
      ++ Nat.repr ((roundHalfEven (x * 100)).natAbs / 100),
    Nat.digitChar ((roundHalfEven (x * 100)).natAbs / 10 % 10),
    Nat.digitChar ((roundHalfEven (x * 100)).natAbs % 10),
    ?_, digitChar_isDigit _ (Nat.mod_lt _ (by norm_num)),
    digitChar_isDigit _ (Nat.mod_lt _ (by norm_num))⟩
  rfl

/-- C6 counterexample: the file written for a concrete house configuration
begins with the header `mes,mensalidade,contrato_parcela,total_no_mes`, not
with the header `month,rent,contract_installment,total_for_month` stated in
the claim. -/
theorem c6_header_counterexample :
    (∃ rows, to_csv { property_type := "casa" } "orcamento.csv"
        = ([FsOp.makeOutputDir,
            FsOp.writeTextFile "output/orcamento.csv" (header_line :: rows)],
           .ok "output/orcamento.csv"))
    ∧ header_line ≠ "month,rent,contract_installment,total_for_month" := by
  constructor
  · have hE := rent_before_discount_casa { property_type := "casa" } (by decide)
    norm_num at hE
    have hc := compute_monthly_rent_of_rbd _ _ hE
    have hcond : ¬(strLower ({ property_type := "casa" } : RentalQuote).property_type
        = "apartamento"
        ∧ ({ property_type := "casa" } : RentalQuote).has_children = false) := by decide
    rw [if_neg hcond] at hc
    refine ⟨(schedule_rows (round2 900)
        (contract_installment_value { property_type := "casa" })
        (max 1 (min 1 5))).map row_line, ?_⟩
    unfold to_csv
    rw [hc]
    rfl
  · decide

/-- C6 amended: the serialized output is the header row
`mes,mensalidade,contrato_parcela,total_no_mes` followed by exactly 12 data
rows, one per month 1..12, with every numeric field formatted with exactly
two decimal digits after a period separator. -/
theorem c6_amended_serialization (q : RentalQuote) (fn : String)
    (h : known_type q) :
    ∃ mens, compute_monthly_rent q = .ok mens
      ∧ to_csv q fn = ([FsOp.makeOutputDir,
          FsOp.writeTextFile ("output/" ++ fn)
            (header_line :: (schedule_rows mens (contract_installment_value q)
              (max 1 (min q.contract_installments 5))).map row_line)],
         .ok ("output/" ++ fn))
      ∧ header_line = "mes,mensalidade,contrato_parcela,total_no_mes"
      ∧ ((schedule_rows mens (contract_installment_value q)
            (max 1 (min q.contract_installments 5))).map row_line).length = 12
      ∧ (∀ r : ScheduleRow,
          row_line r = Nat.repr r.mes ++ "," ++ fmt2 r.mensalidade ++ ","
            ++ fmt2 r.contrato_parcela ++ "," ++ fmt2 r.total_no_mes)
      ∧ (∀ x : ℚ, ∃ (p : String) (a b : Char),
          fmt2 x = p ++ "." ++ String.singleton a ++ String.singleton b
          ∧ a.isDigit = true ∧ b.isDigit = true) := by
  obtain ⟨v, hv, _⟩ := compute_monthly_rent_ok q h
  refine ⟨v, hv, ?_, rfl, rfl, fun r => rfl, fmt2_two_decimals⟩
  unfold to_csv
  rw [hv]

/-- Witness for the amended C6 at a concrete house configuration. -/
theorem c6_amended_serialization_witness :
    ∃ mens, compute_monthly_rent { property_type := "casa" } = .ok mens
      ∧ to_csv { property_type := "casa" } "orc.csv" = ([FsOp.makeOutputDir,
          FsOp.writeTextFile ("output/" ++ "orc.csv")
            (header_line :: (schedule_rows mens
              (contract_installment_value { property_type := "casa" })
              (max 1 (min 1 5))).map row_line)],
         .ok ("output/" ++ "orc.csv"))
      ∧ header_line = "mes,mensalidade,contrato_parcela,total_no_mes"
      ∧ ((schedule_rows mens
            (contract_installment_value { property_type := "casa" })
            (max 1 (min 1 5))).map row_line).length = 12
      ∧ (∀ r : ScheduleRow,
          row_line r = Nat.repr r.mes ++ "," ++ fmt2 r.mensalidade ++ ","
            ++ fmt2 r.contrato_parcela ++ "," ++ fmt2 r.total_no_mes)
      ∧ (∀ x : ℚ, ∃ (p : String) (a b : Char),
          fmt2 x = p ++ "." ++ String.singleton a ++ String.singleton b
          ∧ a.isDigit = true ∧ b.isDigit = true) :=
  c6_amended_serialization { property_type := "casa" } "orc.csv" (by decide)
